import Mathlib

/-! The `Home` component (`frontend/src/components/Home/Home.js`).

A shallow embedding of the `Home` React component: the profile-fetch flow
(`fetchUserProfile`), the view selection and avatar/greeting render, the
history guard (`preventBack` and the effect cleanup) and `handleLogout`.

JavaScript values are modelled by small first-order types.  Calls to
collaborators and to the React state setters are recorded as a list of
`Effect`s in program order, and the setters are interpreted on the
`ViewState` triple `(user, loading, error)`.
-/

namespace Home

/-! ## JavaScript values -/

/-- JavaScript primitive values, as far as `Home.js` inspects them
(`!currentUser.id`, `err.response.status === 401`). -/
inductive Prim where
  | undefined
  | null
  | bool (b : Bool)
  | num (n : Int)
  | str (s : String)
  deriving DecidableEq, Repr

/-- JavaScript truthiness of a primitive. -/
def Prim.truthy : Prim → Bool
  | .undefined => false
  | .null => false
  | .bool b => b
  | .num n => n != 0
  | .str s => s != ""

/-- An optional string field of a profile record: `undefined`, `null` or a string. -/
inductive OptString where
  | undefined
  | null
  | str (s : String)
  deriving DecidableEq, Repr

/-- JavaScript truthiness of an optional string: only a non-empty string is truthy. -/
def OptString.truthy : OptString → Bool
  | .undefined => false
  | .null => false
  | .str s => s != ""

/-- The `UserProfile` record, restricted to the two fields `Home` reads. -/
structure Profile where
  username : OptString
  profilePicture : OptString
  deriving DecidableEq, Repr

/-- The result of `AuthService.getCurrentUser()`: `null`, or an object whose
`id` property reads as the given primitive (`undefined` when it has none). -/
inductive CurrentUser where
  | null
  | obj (id : Prim)
  deriving DecidableEq, Repr

/-- The value read by `err.response`: a primitive (`undefined` when the
property is absent), or an object whose `status` property reads as given. -/
inductive ErrResponse where
  | prim (p : Prim)
  | obj (status : Prim)
  deriving DecidableEq, Repr

/-- A value caught by `catch (err)`: `null`/`undefined`, or any other value,
described by its `message` and `response` properties. -/
inductive Thrown where
  | nullish
  | val (message : Prim) (response : ErrResponse)
  deriving DecidableEq, Repr

/-- The value a resolved `ApiService.getUserProfile` promise yields:
`null`/`undefined`, or an object whose `data` property is `null` or a profile. -/
inductive Response where
  | nullish
  | obj (data : Option Profile)
  deriving DecidableEq, Repr

/-- How the awaited `ApiService.getUserProfile(id)` promise settles. -/
inductive FetchOutcome where
  | resolved (response : Response)
  | rejected (err : Thrown)
  deriving DecidableEq, Repr

/-! ## Effects and view state -/

/-- Calls performed by `Home`, in program order.  `uncaught` marks an
exception that escapes `fetchUserProfile` (reading `err.response` when `err`
is `null` or `undefined`). -/
inductive Effect where
  | getCurrentUser
  | getUserProfile (id : Prim)
  | setUser (u : Option Profile)
  | setLoading (b : Bool)
  | setError (msg : String)
  | consoleError (err : Thrown)
  | logout
  | navigate (path : String)
  | uncaught
  deriving DecidableEq, Repr

/-- Whether an effect is one of the three React state setters. -/
def Effect.isSetter : Effect → Bool
  | .setUser _ => true
  | .setLoading _ => true
  | .setError _ => true
  | _ => false

/-- Whether an effect is a call of `navigate`. -/
def Effect.isNavigate : Effect → Bool
  | .navigate _ => true
  | _ => false

/-- The three `useState` cells of `Home`. -/
structure ViewState where
  user : Option Profile
  loading : Bool
  error : String
  deriving DecidableEq, Repr

/-- The initial state: `useState(null)`, `useState(true)`, `useState('')`. -/
def ViewState.init : ViewState := { user := none, loading := true, error := "" }

/-- The effect of one call on the view state: only the setters change it. -/
def applyEffect (s : ViewState) : Effect → ViewState
  | .setUser u => { s with user := u }
  | .setLoading b => { s with loading := b }
  | .setError msg => { s with error := msg }
  | _ => s

/-- The view state after a list of calls. -/
def runView (s : ViewState) (es : List Effect) : ViewState := es.foldl applyEffect s

/-! ## `fetchUserProfile` -/

/-- The message of the error thrown when there is no session (line 20). -/
def sessionMissingMessage : String := "사용자 정보가 없습니다."

/-- The message passed to `setError` in the catch block (line 27). -/
def fetchFailedMessage : String := "사용자 정보를 불러오는 데 실패했습니다."

/-- The value of `new Error('사용자 정보가 없습니다.')`: it has no `response`. -/
def sessionMissingError : Thrown := .val (.str sessionMissingMessage) (.prim .undefined)

/-- The `TypeError` raised by `response.data` when `response` is `null` or
`undefined`; its message text is engine-specific and it has no `response`. -/
def responseTypeError : Thrown := .val (.str "TypeError") (.prim .undefined)

/-- The test `err.response && err.response.status === 401` (line 29), for a
non-nullish `err`.  A truthy primitive has no `status` property. -/
def isUnauthorized : ErrResponse → Bool
  | .prim _ => false
  | .obj status => decide (status = .num 401)

/-- The catch block (lines 26-32). -/
def catchBlock (err : Thrown) : List Effect :=
  [.consoleError err, .setError fetchFailedMessage, .setLoading false] ++
    match err with
    | .nullish => [.uncaught]
    | .val _ response => if isUnauthorized response then [.logout, .navigate "/login"] else []

/-- The test `!currentUser || !currentUser.id` (line 19). -/
def sessionMissing : CurrentUser → Bool
  | .null => true
  | .obj id => !id.truthy

/-- The part of `fetchUserProfile` that runs before the `await` (lines 18-22):
the calls made, and the id of the request left in flight, if any. -/
def fetchStart (currentUser : CurrentUser) : List Effect × Option Prim :=
  match currentUser with
  | .null => (.getCurrentUser :: catchBlock sessionMissingError, none)
  | .obj id =>
    if sessionMissing (.obj id) then (.getCurrentUser :: catchBlock sessionMissingError, none)
    else ([.getCurrentUser, .getUserProfile id], some id)

/-- The part of `fetchUserProfile` that runs once the awaited promise has
settled (lines 22-33). -/
def afterAwait : FetchOutcome → List Effect
  | .resolved (.obj data) => [.setUser data, .setLoading false]
  | .resolved .nullish => catchBlock responseTypeError
  | .rejected err => catchBlock err

/-- One complete run of `fetchUserProfile` (lines 16-34): the calls it makes,
given what `getCurrentUser()` returns and how the request settles. -/
def fetchUserProfile (currentUser : CurrentUser) (outcome : FetchOutcome) : List Effect :=
  match fetchStart currentUser with
  | (es, none) => es
  | (es, some _) => es ++ afterAwait outcome

/-- The view state `Home` is left in after one run of `fetchUserProfile`. -/
def settledView (currentUser : CurrentUser) (outcome : FetchOutcome) : ViewState :=
  runView ViewState.init (fetchUserProfile currentUser outcome)

/-! ## Render -/

/-- The two built-in string methods the render uses, `String.prototype.charAt`
at index `0` and `String.prototype.toUpperCase`; they belong to the JavaScript
runtime, so the render is parametrised by them. -/
structure StringRuntime where
  charAt0 : String → String
  toUpperCase : String → String

/-- A runtime for ASCII text: `charAt0` keeps the first character (none for the
empty string) and `toUpperCase` maps every character with `Char.toUpper`. -/
def asciiRuntime : StringRuntime where
  charAt0 := fun s => String.mk (s.data.take 1)
  toUpperCase := fun s => String.mk (s.data.map Char.toUpper)

/-- Which of the three `return` statements of `Home` is taken. -/
inductive View where
  | loading
  | error
  | loaded
  deriving DecidableEq, Repr

/-- The view selection (lines 59-75): `if (loading)`, then `if (error)`,
otherwise the main panel.  A string is truthy exactly when it is non-empty. -/
def selectView (s : ViewState) : View :=
  if s.loading then .loading
  else if s.error != "" then .error
  else .loaded

/-- The avatar element rendered in the main panel. -/
inductive AvatarNode where
  | image (alt : OptString) (src : String)
  | fallback (text : String)
  deriving DecidableEq, Repr

/-- The base URL the avatar image is served from (line 93). -/
def avatarBase : String := "http://localhost:8080"

/-- The value of `user && user.username` when it is truthy. -/
def usernameOf : Option Profile → Option String
  | none => none
  | some u =>
    match u.username with
    | .str s => if s != "" then some s else none
    | _ => none

/-- The value of `user && user.profilePicture` when it is truthy. -/
def pictureOf : Option Profile → Option String
  | none => none
  | some u =>
    match u.profilePicture with
    | .str s => if s != "" then some s else none
    | _ => none

/-- The text of the fallback avatar (line 98):
`user && user.username ? user.username.charAt(0).toUpperCase() : 'U'`. -/
def fallbackText (rt : StringRuntime) (user : Option Profile) : String :=
  match usernameOf user with
  | some s => rt.toUpperCase (rt.charAt0 s)
  | none => "U"

/-- The avatar (lines 90-100): the image when `user && user.profilePicture` is
truthy, the fallback otherwise. -/
def avatar (rt : StringRuntime) (user : Option Profile) : AvatarNode :=
  match user, pictureOf user with
  | some u, some pic => .image u.username (avatarBase ++ pic)
  | _, _ => .fallback (fallbackText rt user)

/-- The name interpolated into the greeting (line 102):
`user && user.username ? user.username : 'User'`. -/
def displayName (user : Option Profile) : String :=
  match usernameOf user with
  | some s => s
  | none => "User"

/-- The text of the greeting heading (lines 101-103). -/
def greeting (user : Option Profile) : String :=
  "안녕하세요, " ++ displayName user ++ "님!"

/-- What `Home` renders, as far as it depends on the view state. -/
inductive Rendered where
  | loading
  | error (msg : String)
  | loaded (avatar : AvatarNode) (greeting : String)
  deriving DecidableEq, Repr

/-- The render of `Home` (lines 59-189). -/
def render (rt : StringRuntime) (s : ViewState) : Rendered :=
  match selectView s with
  | .loading => .loading
  | .error => .error s.error
  | .loaded => .loaded (avatar rt s.user) (greeting s.user)

/-! ## History guard -/

/-- The session history of the browsing context: the URLs of its entries,
oldest first, and the position of the current entry. -/
structure History where
  entries : List String
  index : Nat
  deriving DecidableEq, Repr

/-- The current entry exists. -/
def History.WellFormed (h : History) : Prop := h.index < h.entries.length

instance (h : History) : Decidable h.WellFormed :=
  inferInstanceAs (Decidable (h.index < h.entries.length))

/-- The URL of the current entry (`window.location.href`). -/
def History.location (h : History) : String := h.entries.getD h.index ""

/-- The call `window.history.pushState(null, '', url)`: the entries after the
current one are dropped, a new entry is appended and becomes current. -/
def History.pushState (h : History) (url : String) : History :=
  { entries := h.entries.take (h.index + 1) ++ [url], index := h.index + 1 }

/-- The handlers `Home` assigns to `window.onpopstate`: only the closure of
lines 41-43. -/
inductive PopHandler where
  | repush
  deriving DecidableEq, Repr

/-- The part of `window` the history guard touches. -/
structure Window where
  history : History
  onpopstate : Option PopHandler
  deriving DecidableEq, Repr

/-- The body of `preventBack` (lines 39-44). -/
def preventBack (w : Window) : Window :=
  { history := w.history.pushState w.history.location, onpopstate := some .repush }

/-- The cleanup returned by the effect (lines 48-51). -/
def cleanup (w : Window) : Window := { w with onpopstate := none }

/-- Running the installed `onpopstate` handler, if any (line 42). -/
def firePopstate (w : Window) : Window :=
  match w.onpopstate with
  | some .repush => { w with history := w.history.pushState w.history.location }
  | none => w

/-- One back-navigation event: the current index moves back one entry and the
installed handler is fired; at the first entry nothing happens. -/
def back (w : Window) : Window :=
  if w.history.index = 0 then w
  else firePopstate { w with history := { w.history with index := w.history.index - 1 } }

/-- The state of the window while `Home` is mounted at `url`: the handler is
installed, and the current entry and the one before it both show `url`. -/
def Trapped (url : String) (w : Window) : Prop :=
  w.onpopstate = some .repush ∧ 1 ≤ w.history.index ∧
    w.history.entries[w.history.index]? = some url ∧
    w.history.entries[w.history.index - 1]? = some url

instance (url : String) (w : Window) : Decidable (Trapped url w) :=
  inferInstanceAs (Decidable (_ ∧ _))

/-! ## Mount, unmount and the in-flight request -/

/-- One mounted instance of `Home` together with the window it runs in.
`calls` records every call made so far and `lateCalls` those made after the
effect cleanup ran.  `view` records the setter calls applied to the state
cells; the source makes them whether or not the instance is still mounted. -/
structure Instance where
  view : ViewState
  window : Window
  pending : Option Prim
  cleanedUp : Bool
  calls : List Effect
  lateCalls : List Effect
  deriving DecidableEq, Repr

/-- Perform a list of calls on an instance. -/
def perform (i : Instance) (es : List Effect) : Instance :=
  { i with
    view := runView i.view es
    calls := i.calls ++ es
    lateCalls := if i.cleanedUp then i.lateCalls ++ es else i.lateCalls }

/-- The effect body on mount (lines 15-46): `fetchUserProfile()` runs up to
its `await`, then `preventBack()` runs. -/
def mount (currentUser : CurrentUser) (w : Window) : Instance :=
  perform
    { view := ViewState.init, window := preventBack w, pending := (fetchStart currentUser).2,
      cleanedUp := false, calls := [], lateCalls := [] }
    (fetchStart currentUser).1

/-- Unmounting runs the effect cleanup (lines 48-51) and nothing else. -/
def unmount (i : Instance) : Instance :=
  { i with window := cleanup i.window, cleanedUp := true }

/-- The awaited request settles: the rest of `fetchUserProfile` runs. -/
def settle (i : Instance) (outcome : FetchOutcome) : Instance :=
  match i.pending with
  | none => i
  | some _ => perform { i with pending := none } (afterAwait outcome)

/-! ## Logout -/

/-- The state the logout action is described over: the session and the
current location. -/
structure AppState where
  session : CurrentUser
  location : String
  deriving DecidableEq, Repr

/-- Modelled from the spec: `AuthService.logout()` and `navigate(path)` are
collaborators outside this file; `logout` clears the session, `navigate` sets
the location, and every other call leaves session and location alone. -/
def applyApp (s : AppState) : Effect → AppState
  | .logout => { s with session := .null }
  | .navigate path => { s with location := path }
  | _ => s

/-- The calls made by `handleLogout` (lines 54-57). -/
def handleLogout : List Effect := [.logout, .navigate "/login"]

/-- The state after a list of calls. -/
def runApp (s : AppState) (es : List Effect) : AppState := es.foldl applyApp s

/-! ## The profile-fetch flow -/

/-- C1: in one run of `fetchUserProfile`, when the session has an id and the
request is rejected with an error whose `response.status` is `401`, `logout`
is called exactly once, `navigate` is called exactly once and with `'/login'`,
and the view ends in Error (loading false, error message non-empty); in every
other run `logout` is never called. -/
theorem logout_exactly_on_unauthorized (currentUser : CurrentUser) (outcome : FetchOutcome) :
    ((∃ id msg, currentUser = .obj id ∧ id.truthy = true ∧
          outcome = .rejected (.val msg (.obj (.num 401)))) →
      (fetchUserProfile currentUser outcome).count .logout = 1 ∧
      (fetchUserProfile currentUser outcome).filter Effect.isNavigate = [.navigate "/login"] ∧
      (settledView currentUser outcome).loading = false ∧
      (settledView currentUser outcome).error ≠ "" ∧
      selectView (settledView currentUser outcome) = .error) ∧
    ((¬ ∃ id msg, currentUser = .obj id ∧ id.truthy = true ∧
          outcome = .rejected (.val msg (.obj (.num 401)))) →
      (fetchUserProfile currentUser outcome).count .logout = 0) := by
  constructor
  · rintro ⟨id, msg, rfl, hid, rfl⟩
    simp [fetchUserProfile, fetchStart, sessionMissing, hid, afterAwait, catchBlock,
      isUnauthorized, Effect.isNavigate, settledView, runView, applyEffect, ViewState.init,
      selectView]
    decide
  · intro h
    cases currentUser with
    | null => simp [fetchUserProfile, fetchStart, catchBlock, sessionMissingError, isUnauthorized]
    | obj id =>
      cases hid : id.truthy with
      | false =>
        simp [fetchUserProfile, fetchStart, sessionMissing, hid, catchBlock, sessionMissingError,
          isUnauthorized]
      | true =>
        cases outcome with
        | resolved response =>
          cases response <;>
            simp [fetchUserProfile, fetchStart, sessionMissing, hid, afterAwait, catchBlock,
              responseTypeError, isUnauthorized]
        | rejected err =>
          cases err with
          | nullish =>
            simp [fetchUserProfile, fetchStart, sessionMissing, hid, afterAwait, catchBlock]
          | val msg response =>
            cases response with
            | prim p =>
              simp [fetchUserProfile, fetchStart, sessionMissing, hid, afterAwait, catchBlock,
                isUnauthorized]
            | obj status =>
              have hs : status ≠ .num 401 := by
                rintro rfl
                exact h ⟨id, msg, rfl, hid, rfl⟩
              simp [fetchUserProfile, fetchStart, sessionMissing, hid, afterAwait, catchBlock,
                isUnauthorized, hs]

/-- Witness for C1: a `401` rejection and a missing session. -/
theorem logout_exactly_on_unauthorized_witness :
    (fetchUserProfile (.obj (.num 7))
        (.rejected (.val (.str "Unauthorized") (.obj (.num 401))))).count .logout = 1 ∧
    (fetchUserProfile .null (.resolved .nullish)).count .logout = 0 :=
  ⟨((logout_exactly_on_unauthorized (.obj (.num 7))
        (.rejected (.val (.str "Unauthorized") (.obj (.num 401))))).1
      ⟨.num 7, .str "Unauthorized", rfl, rfl, rfl⟩).1,
   (logout_exactly_on_unauthorized .null (.resolved .nullish)).2 (by simp)⟩

/-- C2: when `getCurrentUser()` returns `null` or an object without a truthy
id, one run of `fetchUserProfile` never calls `getUserProfile` and leaves the
view in Error: loading false, error message non-empty, user still `null`. -/
theorem missing_session_settles_in_error (currentUser : CurrentUser) (outcome : FetchOutcome)
    (h : currentUser = .null ∨ ∃ id, currentUser = .obj id ∧ id.truthy = false) :
    (∀ id, Effect.getUserProfile id ∉ fetchUserProfile currentUser outcome) ∧
    (settledView currentUser outcome).loading = false ∧
    (settledView currentUser outcome).error ≠ "" ∧
    (settledView currentUser outcome).user = none ∧
    selectView (settledView currentUser outcome) = .error := by
  rcases h with rfl | ⟨id, rfl, hid⟩
  · simp [fetchUserProfile, fetchStart, catchBlock, sessionMissingError,
      isUnauthorized, settledView, runView, applyEffect, ViewState.init, selectView]
    decide
  · simp [fetchUserProfile, fetchStart, sessionMissing, hid, catchBlock, sessionMissingError,
      isUnauthorized, settledView, runView, applyEffect, ViewState.init, selectView]
    decide

/-- Witness for C2: a session object whose id is `undefined`. -/
theorem missing_session_settles_in_error_witness :
    (∀ id, Effect.getUserProfile id ∉
        fetchUserProfile (.obj .undefined) (.resolved (.obj none))) ∧
    (settledView (.obj .undefined) (.resolved (.obj none))).loading = false ∧
    (settledView (.obj .undefined) (.resolved (.obj none))).error ≠ "" ∧
    (settledView (.obj .undefined) (.resolved (.obj none))).user = none ∧
    selectView (settledView (.obj .undefined) (.resolved (.obj none))) = .error :=
  missing_session_settles_in_error (.obj .undefined) (.resolved (.obj none))
    (Or.inr ⟨.undefined, rfl, rfl⟩)

/-- C3, as stated, fails: with no session the view settles on the generic
fetch-failed message, not on the session-missing text, and the settled view
state is the very state a failed fetch leaves behind. -/
theorem missing_session_message_is_generic :
    (settledView .null (.resolved .nullish)).error ≠ sessionMissingMessage ∧
    settledView .null (.resolved .nullish) =
      settledView (.obj (.num 7)) (.rejected (.val (.str "Network Error") (.prim .undefined))) := by
  decide

/-- C3, amended: for every absent or id-less session the view settles on the
generic fetch-failed message, which differs from the session-missing text;
that text is only the message of the error passed to `console.error`; and the
settled view state equals the one left by any rejected fetch. -/
theorem missing_session_shows_fetch_failed (currentUser : CurrentUser) (outcome : FetchOutcome)
    (h : currentUser = .null ∨ ∃ id, currentUser = .obj id ∧ id.truthy = false) :
    (settledView currentUser outcome).error = fetchFailedMessage ∧
    fetchFailedMessage ≠ sessionMissingMessage ∧
    Effect.consoleError (.val (.str sessionMissingMessage) (.prim .undefined)) ∈
      fetchUserProfile currentUser outcome ∧
    (∀ id err, id.truthy = true →
      settledView (.obj id) (.rejected err) = settledView currentUser outcome) := by
  refine ⟨?_, by decide, ?_, ?_⟩
  · rcases h with rfl | ⟨id, rfl, hid⟩
    · simp [fetchUserProfile, fetchStart, catchBlock, sessionMissingError,
        isUnauthorized, settledView, runView, applyEffect, ViewState.init]
    · simp [fetchUserProfile, fetchStart, sessionMissing, hid, catchBlock, sessionMissingError,
        isUnauthorized, settledView, runView, applyEffect, ViewState.init]
  · rcases h with rfl | ⟨id, rfl, hid⟩
    · simp [fetchUserProfile, fetchStart, catchBlock, sessionMissingError]
    · simp [fetchUserProfile, fetchStart, sessionMissing, hid, catchBlock, sessionMissingError]
  · intro id' err hid'
    have hr : settledView (.obj id') (.rejected err) =
        { user := none, loading := false, error := fetchFailedMessage } := by
      cases err with
      | nullish =>
        simp [fetchUserProfile, fetchStart, sessionMissing, hid', afterAwait, catchBlock,
          settledView, runView, applyEffect, ViewState.init]
      | val msg response =>
        by_cases hu : isUnauthorized response = true <;>
          simp [fetchUserProfile, fetchStart, sessionMissing, hid', afterAwait, catchBlock,
            settledView, runView, applyEffect, ViewState.init, hu]
    rw [hr]
    rcases h with rfl | ⟨id, rfl, hid⟩
    · simp [fetchUserProfile, fetchStart, catchBlock, sessionMissingError,
        isUnauthorized, settledView, runView, applyEffect, ViewState.init]
    · simp [fetchUserProfile, fetchStart, sessionMissing, hid, catchBlock, sessionMissingError,
        isUnauthorized, settledView, runView, applyEffect, ViewState.init]

/-- Witness for C3, amended: a `null` session. -/
theorem missing_session_shows_fetch_failed_witness :
    (settledView .null (.resolved .nullish)).error = fetchFailedMessage ∧
    fetchFailedMessage ≠ sessionMissingMessage :=
  ⟨(missing_session_shows_fetch_failed .null (.resolved .nullish) (Or.inl rfl)).1,
   (missing_session_shows_fetch_failed .null (.resolved .nullish) (Or.inl rfl)).2.1⟩

/-! ## Render of a loaded profile -/

/-- C4: for every successful fetch (a session with an id, and a request that
resolves with a profile) the view settles in Loaded (loading false, error
empty, user the returned profile), `Home` renders the main panel, and the
greeting contains the returned username verbatim, for every username
including the empty string.  For a non-empty username the greeting is the
fixed text `안녕하세요, ` and `님!` around it; for the empty username the name
shown is the fallback `User`. -/
theorem successful_fetch_settles_in_loaded (rt : StringRuntime) (id : Prim) (name : String)
    (picture : OptString) (hid : id.truthy = true) :
    settledView (.obj id) (.resolved (.obj (some ⟨.str name, picture⟩))) =
      { user := some ⟨.str name, picture⟩, loading := false, error := "" } ∧
    render rt (settledView (.obj id) (.resolved (.obj (some ⟨.str name, picture⟩)))) =
      .loaded (avatar rt (some ⟨.str name, picture⟩)) (greeting (some ⟨.str name, picture⟩)) ∧
    (∃ before after, greeting (some ⟨.str name, picture⟩) = before ++ name ++ after) ∧
    (name ≠ "" → greeting (some ⟨.str name, picture⟩) = "안녕하세요, " ++ name ++ "님!") ∧
    (name = "" → greeting (some ⟨.str name, picture⟩) = "안녕하세요, User님!") := by
  have hs : settledView (.obj id) (.resolved (.obj (some ⟨.str name, picture⟩))) =
      { user := some ⟨.str name, picture⟩, loading := false, error := "" } := by
    simp [fetchUserProfile, fetchStart, sessionMissing, hid, afterAwait, settledView, runView,
      applyEffect, ViewState.init]
  have hfull : name ≠ "" →
      greeting (some ⟨.str name, picture⟩) = "안녕하세요, " ++ name ++ "님!" := by
    intro hn
    simp [greeting, displayName, usernameOf, hn]
  refine ⟨hs, ?_, ?_, hfull, ?_⟩
  · rw [hs]
    simp [render, selectView]
  · by_cases hn : name = ""
    · subst hn
      exact ⟨greeting (some ⟨.str "", picture⟩), "", by simp⟩
    · exact ⟨"안녕하세요, ", "님!", hfull hn⟩
  · rintro rfl
    simp [greeting, displayName, usernameOf]

/-- Witness for C4: the profile of `alice`. -/
theorem successful_fetch_settles_in_loaded_witness :
    settledView (.obj (.num 7)) (.resolved (.obj (some ⟨.str "alice", .null⟩))) =
      { user := some ⟨.str "alice", .null⟩, loading := false, error := "" } ∧
    (∃ before after, greeting (some ⟨.str "alice", .null⟩) = before ++ "alice" ++ after) ∧
    greeting (some ⟨.str "alice", .null⟩) = "안녕하세요, " ++ "alice" ++ "님!" :=
  ⟨(successful_fetch_settles_in_loaded asciiRuntime (.num 7) "alice" .null rfl).1,
   (successful_fetch_settles_in_loaded asciiRuntime (.num 7) "alice" .null rfl).2.2.1,
   (successful_fetch_settles_in_loaded asciiRuntime (.num 7) "alice" .null rfl).2.2.2.1
     (by decide)⟩

/-- C5, as stated, fails for the empty username: with no picture the fallback
avatar shows `U`, which is not the upper-cased first character of the empty
string (there is none). -/
theorem fallback_avatar_of_empty_username :
    render asciiRuntime { user := some ⟨.str "", .null⟩, loading := false, error := "" } =
      .loaded (.fallback "U") (greeting (some ⟨.str "", .null⟩)) ∧
    asciiRuntime.toUpperCase (asciiRuntime.charAt0 "") = "" ∧
    AvatarNode.fallback "U" ≠
      AvatarNode.fallback (asciiRuntime.toUpperCase (asciiRuntime.charAt0 "")) := by
  decide

/-- C5, amended: for a loaded profile whose `profilePicture` is `undefined`,
`null` or empty, `Home` renders the fallback avatar, whose text is the first
character of the username upper-cased when the username is non-empty and `U`
when it is empty; for a loaded profile whose `profilePicture` is a non-empty
string it renders the image avatar with source `http://localhost:8080`
followed by `profilePicture`. -/
theorem avatar_of_loaded_profile (rt : StringRuntime) (name : String) (picture : OptString) :
    ((picture = .undefined ∨ picture = .null ∨ picture = .str "") →
      render rt { user := some ⟨.str name, picture⟩, loading := false, error := "" } =
        .loaded (.fallback (if name = "" then "U" else rt.toUpperCase (rt.charAt0 name)))
          (greeting (some ⟨.str name, picture⟩))) ∧
    (∀ path, picture = .str path → path ≠ "" →
      render rt { user := some ⟨.str name, picture⟩, loading := false, error := "" } =
        .loaded (.image (.str name) ("http://localhost:8080" ++ path))
          (greeting (some ⟨.str name, picture⟩))) := by
  constructor
  · intro h
    by_cases hn : name = "" <;> rcases h with rfl | rfl | rfl <;>
      simp [render, selectView, avatar, pictureOf, fallbackText, usernameOf, hn]
  · rintro path rfl hp
    simp [render, selectView, avatar, pictureOf, hp, avatarBase]

/-- Witness for C5, amended: `alice` without and with a picture. -/
theorem avatar_of_loaded_profile_witness :
    render asciiRuntime { user := some ⟨.str "alice", .null⟩, loading := false, error := "" } =
      .loaded (.fallback (if "alice" = "" then "U" else
          asciiRuntime.toUpperCase (asciiRuntime.charAt0 "alice")))
        (greeting (some ⟨.str "alice", .null⟩)) ∧
    render asciiRuntime
        { user := some ⟨.str "alice", .str "/img/a.png"⟩, loading := false, error := "" } =
      .loaded (.image (.str "alice") ("http://localhost:8080" ++ "/img/a.png"))
        (greeting (some ⟨.str "alice", .str "/img/a.png"⟩)) :=
  ⟨(avatar_of_loaded_profile asciiRuntime "alice" .null).1 (Or.inr (Or.inl rfl)),
   (avatar_of_loaded_profile asciiRuntime "alice" (.str "/img/a.png")).2 "/img/a.png" rfl
     (by decide)⟩

/-! ## View states along one run -/

/-- A call that is not a state setter leaves the view state alone. -/
theorem applyEffect_of_not_setter (s : ViewState) (e : Effect) (h : e.isSetter = false) :
    applyEffect s e = s := by
  cases e <;> simp_all [applyEffect, Effect.isSetter]

/-- Calls none of which is a state setter leave the view state alone. -/
theorem runView_of_no_setter (s : ViewState) (es : List Effect)
    (h : ∀ e ∈ es, e.isSetter = false) : runView s es = s := by
  induction es generalizing s with
  | nil => rfl
  | cons e es ih =>
    have he : applyEffect s e = s := applyEffect_of_not_setter s e (h e (by simp))
    have hes : ∀ x ∈ es, x.isSetter = false := fun x hx => h x (by simp [hx])
    simp only [runView, List.foldl_cons, he]
    exact ih s hes

/-- Running a concatenation of calls runs the parts in turn. -/
theorem runView_append (s : ViewState) (as bs : List Effect) :
    runView s (as ++ bs) = runView (runView s as) bs := by
  simp [runView, List.foldl_append]

/-- The possible shapes of one run: a lead of non-setter calls, then either
`setUser` or `setError`, then `setLoading(false)`, then non-setter calls. -/
theorem fetchUserProfile_shape (currentUser : CurrentUser) (outcome : FetchOutcome) :
    ∃ lead first rest,
      fetchUserProfile currentUser outcome = lead ++ first :: .setLoading false :: rest ∧
      (∀ e ∈ lead, e.isSetter = false) ∧ (∀ e ∈ rest, e.isSetter = false) ∧
      ((∃ u, first = .setUser u) ∨ first = .setError fetchFailedMessage) := by
  have hc : ∀ err, ∃ rest, catchBlock err =
        .consoleError err :: .setError fetchFailedMessage :: .setLoading false :: rest ∧
      (∀ e ∈ rest, e.isSetter = false) := by
    intro err
    cases err with
    | nullish => exact ⟨[.uncaught], by simp [catchBlock], by simp [Effect.isSetter]⟩
    | val msg response =>
      by_cases hu : isUnauthorized response = true
      · exact ⟨[.logout, .navigate "/login"], by simp [catchBlock, hu], by simp [Effect.isSetter]⟩
      · exact ⟨[], by simp [catchBlock, hu], by simp⟩
  have hmiss : ∃ lead first rest,
      Effect.getCurrentUser :: catchBlock sessionMissingError =
        lead ++ first :: .setLoading false :: rest ∧
      (∀ e ∈ lead, e.isSetter = false) ∧ (∀ e ∈ rest, e.isSetter = false) ∧
      ((∃ u, first = Effect.setUser u) ∨ first = .setError fetchFailedMessage) := by
    obtain ⟨rest, hrest, hno⟩ := hc sessionMissingError
    exact ⟨[.getCurrentUser, .consoleError sessionMissingError], _, rest, by simp [hrest],
      by simp [Effect.isSetter], hno, Or.inr rfl⟩
  cases currentUser with
  | null => simpa [fetchUserProfile, fetchStart] using hmiss
  | obj id =>
    cases hid : id.truthy with
    | false => simpa [fetchUserProfile, fetchStart, sessionMissing, hid] using hmiss
    | true =>
      have hcatch : ∀ err, ∃ lead first rest,
          Effect.getCurrentUser :: .getUserProfile id :: catchBlock err =
            lead ++ first :: .setLoading false :: rest ∧
          (∀ e ∈ lead, e.isSetter = false) ∧ (∀ e ∈ rest, e.isSetter = false) ∧
          ((∃ u, first = Effect.setUser u) ∨ first = .setError fetchFailedMessage) := by
        intro err
        obtain ⟨rest, hrest, hno⟩ := hc err
        exact ⟨[.getCurrentUser, .getUserProfile id, .consoleError err], _, rest, by simp [hrest],
          by simp [Effect.isSetter], hno, Or.inr rfl⟩
      cases outcome with
      | resolved response =>
        cases response with
        | nullish =>
          simpa [fetchUserProfile, fetchStart, sessionMissing, hid, afterAwait]
            using hcatch responseTypeError
        | obj data =>
          exact ⟨[.getCurrentUser, .getUserProfile id], .setUser data, [],
            by simp [fetchUserProfile, fetchStart, sessionMissing, hid, afterAwait],
            by simp [Effect.isSetter], by simp, Or.inl ⟨data, rfl⟩⟩
      | rejected err =>
        simpa [fetchUserProfile, fetchStart, sessionMissing, hid, afterAwait] using hcatch err

/-- The view state after the first `n` calls of a run of the shape of
`fetchUserProfile_shape`, by how far `n` reaches past the lead. -/
theorem runView_take_shape (lead rest : List Effect) (first : Effect) (n : Nat)
    (hlead : ∀ e ∈ lead, e.isSetter = false) (hrest : ∀ e ∈ rest, e.isSetter = false) :
    runView ViewState.init ((lead ++ first :: .setLoading false :: rest).take n) =
      match n - lead.length with
      | 0 => ViewState.init
      | 1 => applyEffect ViewState.init first
      | _ + 2 => applyEffect (applyEffect ViewState.init first) (.setLoading false) := by
  rw [List.take_append_eq_append_take, runView_append,
    runView_of_no_setter _ (lead.take n) (fun e he => hlead e (List.mem_of_mem_take he))]
  rcases n - lead.length with _ | _ | j
  · rfl
  · rfl
  · simp only [List.take_succ_cons, runView, List.foldl_cons]
    exact runView_of_no_setter _ (rest.take j) (fun e he => hrest e (List.mem_of_mem_take he))

/-- A state setter is still to come after the first `n` calls of a run of the
shape of `fetchUserProfile_shape` exactly when `n` reaches less than two calls
past the lead. -/
theorem setter_pending_shape (lead rest : List Effect) (first : Effect) (n : Nat)
    (hlead : ∀ e ∈ lead, e.isSetter = false) (hrest : ∀ e ∈ rest, e.isSetter = false)
    (hfirst : first.isSetter = true) :
    (∃ e ∈ (lead ++ first :: .setLoading false :: rest).drop n, e.isSetter = true) ↔
      n - lead.length < 2 := by
  rw [List.drop_append_eq_append_drop]
  have hl : ∀ e ∈ lead.drop n, e.isSetter = false :=
    fun e he => hlead e (List.mem_of_mem_drop he)
  rcases n - lead.length with _ | _ | j
  · constructor
    · intro _
      omega
    · intro _
      exact ⟨first, by simp, hfirst⟩
  · constructor
    · intro _
      omega
    · intro _
      exact ⟨.setLoading false, by simp, rfl⟩
  · constructor
    · rintro ⟨e, he, hs⟩
      rcases List.mem_append.1 he with h | h
      · rw [hl e h] at hs
        exact absurd hs (by decide)
      · have h2 : e ∈ rest.drop j := by simpa using h
        rw [hrest e (List.mem_of_mem_drop h2)] at hs
        exact absurd hs (by decide)
    · intro h
      omega

/-- C7: in every state reached after some number `n` of the calls of one run
of `fetchUserProfile`, started from `(null, true, '')`, the render is exactly
the one of the three views picked by `selectView`; the view is Loading exactly
while a state update of the run is still to come; once the view is Error or
Loaded every later state of the run selects the same view; a non-null user and
a non-empty error never hold together; and the run ends outside Loading. -/
theorem view_is_loading_until_settled (rt : StringRuntime) (currentUser : CurrentUser)
    (outcome : FetchOutcome) (n : Nat) :
    (render rt (runView ViewState.init ((fetchUserProfile currentUser outcome).take n)) =
        .loading ↔
      selectView (runView ViewState.init ((fetchUserProfile currentUser outcome).take n)) =
        .loading) ∧
    (selectView (runView ViewState.init ((fetchUserProfile currentUser outcome).take n)) =
        .loading ↔
      ∃ e ∈ (fetchUserProfile currentUser outcome).drop n, e.isSetter = true) ∧
    (∀ m, n ≤ m →
      selectView (runView ViewState.init ((fetchUserProfile currentUser outcome).take n)) ≠
        .loading →
      selectView (runView ViewState.init ((fetchUserProfile currentUser outcome).take m)) =
        selectView (runView ViewState.init ((fetchUserProfile currentUser outcome).take n))) ∧
    ¬ ((runView ViewState.init ((fetchUserProfile currentUser outcome).take n)).user ≠ none ∧
       (runView ViewState.init ((fetchUserProfile currentUser outcome).take n)).error ≠ "") ∧
    selectView (settledView currentUser outcome) ≠ .loading := by
  obtain ⟨lead, first, rest, htr, hlead, hrest, hfirst⟩ :=
    fetchUserProfile_shape currentUser outcome
  have hset : first.isSetter = true := by
    rcases hfirst with ⟨u, rfl⟩ | rfl <;> rfl
  have hview : ∀ k, selectView (runView ViewState.init
        ((fetchUserProfile currentUser outcome).take k)) = .loading ↔ k - lead.length < 2 := by
    intro k
    rw [htr, runView_take_shape lead rest first k hlead hrest]
    rcases k - lead.length with _ | _ | j
    · simp [selectView, ViewState.init]
    · rcases hfirst with ⟨u, rfl⟩ | rfl <;> simp [selectView, ViewState.init, applyEffect]
    · rcases hfirst with ⟨u, rfl⟩ | rfl
      · simp [selectView, ViewState.init, applyEffect]
      · simp only [selectView, ViewState.init, applyEffect]
        split <;> simp_all
        split <;> simp
  have hlate : ∀ k, 2 ≤ k - lead.length →
      runView ViewState.init ((fetchUserProfile currentUser outcome).take k) =
        applyEffect (applyEffect ViewState.init first) (.setLoading false) := by
    intro k hk
    obtain ⟨j, hj⟩ : ∃ j, k - lead.length = j + 2 := ⟨k - lead.length - 2, by omega⟩
    rw [htr, runView_take_shape lead rest first k hlead hrest, hj]
  refine ⟨?_, ?_, ?_, ?_, ?_⟩
  · simp only [render]
    split <;> simp_all
  · rw [hview n, htr, setter_pending_shape lead rest first n hlead hrest hset]
  · intro m hnm hn
    have h2 : 2 ≤ n - lead.length := by
      have := (hview n).not.1 hn
      omega
    rw [hlate n h2, hlate m (by omega)]
  · rw [htr, runView_take_shape lead rest first n hlead hrest]
    rcases n - lead.length with _ | _ | j
    · simp [ViewState.init]
    · rcases hfirst with ⟨u, rfl⟩ | rfl <;> simp [ViewState.init, applyEffect]
    · rcases hfirst with ⟨u, rfl⟩ | rfl <;> simp [ViewState.init, applyEffect]
  · have hfull : settledView currentUser outcome = runView ViewState.init
        ((fetchUserProfile currentUser outcome).take
          (fetchUserProfile currentUser outcome).length) := by
      simp [settledView]
    rw [hfull]
    intro h
    have := (hview _).1 h
    rw [htr] at this
    simp at this
    omega

/-- Witness for C7: a successful run is Loading after three of its four calls
and Loaded after all four. -/
theorem view_is_loading_until_settled_witness :
    selectView (runView ViewState.init ((fetchUserProfile (.obj (.num 7))
        (.resolved (.obj (some ⟨.str "alice", .null⟩)))).take 3)) = .loading ∧
    selectView (runView ViewState.init ((fetchUserProfile (.obj (.num 7))
        (.resolved (.obj (some ⟨.str "alice", .null⟩)))).take 5)) =
      selectView (runView ViewState.init ((fetchUserProfile (.obj (.num 7))
        (.resolved (.obj (some ⟨.str "alice", .null⟩)))).take 4)) :=
  ⟨(view_is_loading_until_settled asciiRuntime (.obj (.num 7))
      (.resolved (.obj (some ⟨.str "alice", .null⟩))) 3).2.1.2
      ⟨.setLoading false, by decide, rfl⟩,
   (view_is_loading_until_settled asciiRuntime (.obj (.num 7))
      (.resolved (.obj (some ⟨.str "alice", .null⟩))) 4).2.2.1 5 (by decide) (by decide)⟩

/-! ## History guard -/

/-- In a trapped window the current location is the trapped URL. -/
theorem Trapped.location_eq {url : String} {w : Window} (h : Trapped url w) :
    w.history.location = url := by
  obtain ⟨_, _, hcur, _⟩ := h
  simp [History.location, List.getD_eq_getElem?_getD, hcur]

/-- After `preventBack` the window is trapped at the location it was run at. -/
theorem preventBack_trapped (w : Window) (hw : w.history.WellFormed) :
    Trapped w.history.location (preventBack w) := by
  have hlt : w.history.index < w.history.entries.length := hw
  have hloc : w.history.entries[w.history.index]? = some w.history.location := by
    simp [History.location, List.getD_eq_getElem?_getD, List.getElem?_eq_getElem hlt]
  have hlen : (w.history.entries.take (w.history.index + 1)).length = w.history.index + 1 := by
    simp [List.length_take]
    omega
  refine ⟨rfl, by simp [preventBack, History.pushState], ?_, ?_⟩
  · simp only [preventBack, History.pushState]
    rw [List.getElem?_append_right (by omega), hlen]
    simp
  · simp only [preventBack, History.pushState, Nat.add_sub_cancel]
    rw [List.getElem?_append_left (by omega), List.getElem?_take_of_lt (by omega)]
    exact hloc

/-- A back-navigation event keeps a trapped window trapped at the same URL. -/
theorem back_trapped {url : String} {w : Window} (h : Trapped url w) : Trapped url (back w) := by
  obtain ⟨hh, hidx, hcur, hprev⟩ := h
  obtain ⟨i, hi⟩ : ∃ i, w.history.index = i + 1 := ⟨w.history.index - 1, by omega⟩
  rw [hi, Nat.add_sub_cancel] at hprev
  have hilt : i < w.history.entries.length := by
    rcases Nat.lt_or_ge i w.history.entries.length with h | h
    · exact h
    · rw [List.getElem?_eq_none h] at hprev
      exact absurd hprev (by simp)
  have hlen : (w.history.entries.take (i + 1)).length = i + 1 := by
    simp [List.length_take]
    omega
  have hloc : w.history.entries.getD i "" = url := by
    simp [List.getD_eq_getElem?_getD, hprev]
  refine ⟨?_, ?_, ?_, ?_⟩
  · simp [back, hi, firePopstate, hh]
  · simp [back, hi, firePopstate, hh, History.pushState]
  · simp only [back, hi, firePopstate, hh, History.pushState, History.location,
      Nat.add_sub_cancel, Nat.succ_ne_zero, if_false, hloc]
    rw [List.getElem?_append_right (by omega), hlen]
    simp
  · simp only [back, hi, firePopstate, hh, History.pushState, History.location,
      Nat.add_sub_cancel, Nat.succ_ne_zero, if_false, hloc]
    rw [List.getElem?_append_left (by omega), List.getElem?_take_of_lt (by omega)]
    exact hprev

/-- Any number of back-navigation events keeps a trapped window trapped. -/
theorem iterate_back_trapped {url : String} {w : Window} (h : Trapped url w) (n : Nat) :
    Trapped url (back^[n] w) := by
  induction n with
  | zero => exact h
  | succ n ih =>
    rw [Function.iterate_succ_apply']
    exact back_trapped ih

/-- Without a handler a back-navigation event only moves the index. -/
theorem back_without_handler (w : Window) (h : w.onpopstate = none) :
    back w = { history := { entries := w.history.entries, index := w.history.index - 1 },
               onpopstate := none } := by
  obtain ⟨⟨entries, index⟩, handler⟩ := w
  simp only at h
  subst h
  rcases index with _ | i <;> simp [back, firePopstate]

/-- C8: once `preventBack` has run in a window whose current entry exists, any
number of back-navigation events (each moving the index back one entry and
firing the installed handler) leaves the current location equal to the
location `Home` was mounted at; and once the cleanup has run, any number of
back-navigation events only moves the index back, with no re-push: the
entries are untouched and no handler is installed. -/
theorem back_is_trapped_until_cleanup (w : Window) (hw : w.history.WellFormed) (n : Nat) :
    (back^[n] (preventBack w)).history.location = w.history.location ∧
    ∀ v : Window, ∀ k : Nat,
      back^[k] (cleanup v) =
        { history := { entries := v.history.entries, index := v.history.index - k },
          onpopstate := none } := by
  refine ⟨(iterate_back_trapped (preventBack_trapped w hw) n).location_eq, ?_⟩
  intro v k
  induction k with
  | zero => rfl
  | succ k ih =>
    rw [Function.iterate_succ_apply', ih, back_without_handler _ rfl]
    simp only [Window.mk.injEq, History.mk.injEq, true_and, and_true]
    omega

/-- Witness for C8: three back-navigation events after mounting at `/home`,
and one after the cleanup. -/
theorem back_is_trapped_until_cleanup_witness :
    (back^[3] (preventBack ⟨⟨["/login", "/home"], 1⟩, none⟩)).history.location = "/home" ∧
    back^[1] (cleanup (preventBack ⟨⟨["/login", "/home"], 1⟩, none⟩)) =
      { history := { entries := ["/login", "/home", "/home"], index := 1 },
        onpopstate := none } :=
  ⟨(back_is_trapped_until_cleanup ⟨⟨["/login", "/home"], 1⟩, none⟩ (by decide) 3).1,
   (back_is_trapped_until_cleanup ⟨⟨["/login", "/home"], 1⟩, none⟩ (by decide) 3).2
     (preventBack ⟨⟨["/login", "/home"], 1⟩, none⟩) 1⟩

/-- C9, as stated, fails: `preventBack` calls `pushState`, so mounting at the
second of two entries leaves three entries and moves the index from 1 to 2. -/
theorem preventBack_adds_entry :
    (preventBack ⟨⟨["/login", "/home"], 1⟩, none⟩).history.entries =
      ["/login", "/home", "/home"] ∧
    (preventBack ⟨⟨["/login", "/home"], 1⟩, none⟩).history.entries.length ≠
      (["/login", "/home"] : List String).length ∧
    (preventBack ⟨⟨["/login", "/home"], 1⟩, none⟩).history.index ≠ 1 := by
  decide

/-- C9, amended: in a window whose current entry exists, `preventBack` pushes
a new entry for the current location: the entries after the current one are
dropped, one entry with the current location is appended (so there are
index + 2 entries), the index grows by one, the current location is unchanged,
and the re-push handler is installed. -/
theorem preventBack_pushes_current (w : Window) (hw : w.history.WellFormed) :
    (preventBack w).history.entries =
      w.history.entries.take (w.history.index + 1) ++ [w.history.location] ∧
    (preventBack w).history.entries.length = w.history.index + 2 ∧
    (preventBack w).history.index = w.history.index + 1 ∧
    (preventBack w).history.location = w.history.location ∧
    (preventBack w).onpopstate = some .repush := by
  have hlt : w.history.index < w.history.entries.length := hw
  refine ⟨rfl, ?_, rfl, (preventBack_trapped w hw).location_eq, rfl⟩
  simp [preventBack, History.pushState, List.length_take]
  omega

/-- Witness for C9, amended: mounting at the second of two entries. -/
theorem preventBack_pushes_current_witness :
    (preventBack ⟨⟨["/login", "/home"], 1⟩, none⟩).history.entries.length = 1 + 2 ∧
    (preventBack ⟨⟨["/login", "/home"], 1⟩, none⟩).history.index = 1 + 1 :=
  ⟨(preventBack_pushes_current ⟨⟨["/login", "/home"], 1⟩, none⟩ (by decide)).2.1,
   (preventBack_pushes_current ⟨⟨["/login", "/home"], 1⟩, none⟩ (by decide)).2.2.1⟩

/-! ## Unmount while the request is in flight -/

/-- C6, as stated, fails: when `Home` is unmounted with the request in flight
and the request then resolves, `setUser` and `setLoading` are called after the
cleanup; when it is rejected, `setError` and `setLoading` are. -/
theorem setters_called_after_cleanup :
    (settle (unmount (mount (.obj (.num 7)) ⟨⟨["/login", "/home"], 1⟩, none⟩))
        (.resolved (.obj (some ⟨.str "alice", .null⟩)))).lateCalls =
      [.setUser (some ⟨.str "alice", .null⟩), .setLoading false] ∧
    (settle (unmount (mount (.obj (.num 7)) ⟨⟨["/login", "/home"], 1⟩, none⟩))
        (.rejected (.val (.str "Network Error") (.prim .undefined)))).lateCalls =
      [.consoleError (.val (.str "Network Error") (.prim .undefined)),
       .setError fetchFailedMessage, .setLoading false] := by
  decide

/-- C6, amended: the effect cleanup only clears `window.onpopstate`; when
`Home` is unmounted with the request in flight and the request then settles,
the rest of `fetchUserProfile` runs unguarded: the calls made after the
cleanup are exactly those made when the instance is still mounted, and they
always include `setLoading(false)`. -/
theorem settle_after_unmount_unguarded (id : Prim) (w : Window) (outcome : FetchOutcome)
    (hid : id.truthy = true) :
    (unmount (mount (.obj id) w)).view = (mount (.obj id) w).view ∧
    (unmount (mount (.obj id) w)).calls = (mount (.obj id) w).calls ∧
    (unmount (mount (.obj id) w)).window.history = (mount (.obj id) w).window.history ∧
    (unmount (mount (.obj id) w)).window.onpopstate = none ∧
    (settle (unmount (mount (.obj id) w)) outcome).lateCalls = afterAwait outcome ∧
    (settle (unmount (mount (.obj id) w)) outcome).calls =
      (settle (mount (.obj id) w) outcome).calls ∧
    (settle (mount (.obj id) w) outcome).calls = fetchUserProfile (.obj id) outcome ∧
    Effect.setLoading false ∈ (settle (unmount (mount (.obj id) w)) outcome).lateCalls := by
  have hstart : fetchStart (.obj id) = ([.getCurrentUser, .getUserProfile id], some id) := by
    simp [fetchStart, sessionMissing, hid]
  have hmem : Effect.setLoading false ∈ afterAwait outcome := by
    rcases outcome with (_ | data) | err <;> simp [afterAwait, catchBlock]
  have hlate : (settle (unmount (mount (.obj id) w)) outcome).lateCalls = afterAwait outcome := by
    simp [settle, unmount, mount, perform, hstart]
  refine ⟨rfl, rfl, rfl, rfl, hlate, ?_, ?_, ?_⟩
  · simp [settle, unmount, mount, perform, hstart]
  · simp [settle, mount, perform, hstart, fetchUserProfile]
  · rw [hlate]
    exact hmem

/-- Witness for C6, amended: a request that resolves after the unmount. -/
theorem settle_after_unmount_unguarded_witness :
    (settle (unmount (mount (.obj (.num 7)) ⟨⟨["/login", "/home"], 1⟩, none⟩))
        (.resolved (.obj (some ⟨.str "alice", .null⟩)))).lateCalls =
      afterAwait (.resolved (.obj (some ⟨.str "alice", .null⟩))) :=
  (settle_after_unmount_unguarded (.num 7) ⟨⟨["/login", "/home"], 1⟩, none⟩
    (.resolved (.obj (some ⟨.str "alice", .null⟩))) rfl).2.2.2.2.1

/-! ## Logout -/

/-- C10, as stated, fails: with no active session and `Home` shown at `/`,
`handleLogout` changes the state, since it still navigates to `/login`. -/
theorem handleLogout_without_session_navigates :
    runApp ⟨.null, "/"⟩ handleLogout = ⟨.null, "/login"⟩ ∧
    runApp ⟨.null, "/"⟩ handleLogout ≠ ⟨.null, "/"⟩ := by
  decide

/-- C10, amended: `handleLogout` clears the session and sets the location to
`/login`; applying it twice gives the same state as applying it once; it
raises no error; with no active session it leaves the session absent and
still navigates, so the state is unchanged exactly when the location already
was `/login`. -/
theorem handleLogout_idempotent (s : AppState) :
    runApp s handleLogout = ⟨.null, "/login"⟩ ∧
    runApp (runApp s handleLogout) handleLogout = runApp s handleLogout ∧
    Effect.uncaught ∉ handleLogout ∧
    (s.session = .null →
      (runApp s handleLogout).session = s.session ∧
      (runApp s handleLogout = s ↔ s.location = "/login")) := by
  obtain ⟨session, location⟩ := s
  refine ⟨rfl, rfl, by decide, ?_⟩
  intro h
  simp only at h
  subst h
  refine ⟨rfl, ?_⟩
  simp [runApp, handleLogout, applyApp]
  exact eq_comm

/-- Witness for C10, amended: logging out with no session while at `/login`. -/
theorem handleLogout_idempotent_witness :
    (runApp ⟨.null, "/login"⟩ handleLogout).session = .null ∧
    runApp ⟨.null, "/login"⟩ handleLogout = ⟨.null, "/login"⟩ :=
  ⟨((handleLogout_idempotent ⟨.null, "/login"⟩).2.2.2 rfl).1,
   ((handleLogout_idempotent ⟨.null, "/login"⟩).2.2.2 rfl).2.2 rfl⟩

end Home
